import Mathlib

/-!
Verification of the pagination core of the pglens repository.

The development shallowly embeds the route handler GET /api/tables/:tableName
(routes/api.js) and the table-metadata helper functions it calls
(sanitizeTableName, getPrimaryKeyColumn, getPrimaryKeyColumns,
getForeignKeyRelations, getUniqueColumns, getColumnMetadata).

Modelling choices, all taken from the source:
* Query-string parameters arrive as optional strings; `parseInt(x, 10)` is
  modelled by `parseIntJs`, whose NaN outcome is an explicit `JsNum.nan`
  value, and JS comparisons against NaN are false.
* Cell values are integers; a column missing from a row models SQL NULL.
  The cursor parameter is modelled as an optional integer: `some v` stands
  for a non-empty cursor string that casts to the value `v` of the
  primary-key type (JS truthiness makes an empty cursor string absent).
* The SQL text built by the handler is represented by a `SqlQuery` value
  recording the WHERE predicate, the ORDER BY keys, and the LIMIT/OFFSET
  parameters exactly as the handler interpolates them; `runQuery` gives the
  PostgreSQL semantics of that shape over an in-memory table (filter, then
  sort with NULLS LAST on ascending keys and NULLS FIRST on descending
  keys, then OFFSET/DROP and LIMIT/TAKE).  A NaN or negative LIMIT/OFFSET
  parameter makes the query fail, as it does in PostgreSQL.
* The introspection queries of the metadata helpers are modelled by an
  `Introspection` record holding each underlying query's outcome
  (rows or a failure), so the per-helper try/catch behaviour is visible.
* The handler's outcome records the HTTP response (or error response with
  its status code) together with which branch of the if/else chain ran,
  the data query it issued, and whether the COUNT query was reached.
-/

set_option maxHeartbeats 1000000

namespace PgLens

/-- Result of JavaScript parseInt: NaN or an integer value. -/
inductive JsNum where
  | nan : JsNum
  | num : Int → JsNum
deriving DecidableEq

/-- JS comparison `x < m` where x may be NaN (any comparison with NaN is false). -/
def JsNum.ltInt : JsNum → Int → Bool
  | .nan, _ => false
  | .num n, m => n < m

/-- JS strict equality `x === m` (false when x is NaN). -/
def JsNum.eqInt : JsNum → Int → Bool
  | .nan, _ => false
  | .num n, m => n = m

/-- JS subtraction with a NaN operand propagating. -/
def JsNum.subInt : JsNum → Int → JsNum
  | .nan, _ => .nan
  | .num n, m => .num (n - m)

/-- JS multiplication with NaN operands propagating. -/
def JsNum.mul : JsNum → JsNum → JsNum
  | .nan, _ => .nan
  | .num _, .nan => .nan
  | .num n, .num m => .num (n * m)

/-- Value of a run of decimal digit characters. -/
def digitsToNat (ds : List Char) : Nat :=
  ds.foldl (fun acc c => acc * 10 + (c.toNat - 48)) 0

/-- Model of JavaScript `parseInt(s, 10)`: skip leading whitespace, accept an
optional sign, then take the longest prefix of decimal digits; the result is
NaN when that prefix is empty, otherwise the signed value of the digits. -/
def parseIntJs (s : String) : JsNum :=
  match s.toList.dropWhile Char.isWhitespace with
  | '-' :: rest =>
    let ds := rest.takeWhile Char.isDigit
    if ds.isEmpty then .nan else .num (-(digitsToNat ds : Int))
  | '+' :: rest =>
    let ds := rest.takeWhile Char.isDigit
    if ds.isEmpty then .nan else .num (digitsToNat ds : Int)
  | rest =>
    let ds := rest.takeWhile Char.isDigit
    if ds.isEmpty then .nan else .num (digitsToNat ds : Int)

/-- A database row: column names mapped to integer cell values; a column
absent from the list models an SQL NULL in that row. -/
structure Row where
  cells : List (String × Int)
deriving DecidableEq

/-- Value of a column in a row (`none` models NULL / an absent property). -/
def Row.get (r : Row) (c : String) : Option Int :=
  (r.cells.find? (fun x => decide (x.1 = c))).map (fun x => x.2)

/-- One ORDER BY key: column name and direction. -/
structure SortKey where
  col : String
  desc : Bool
deriving DecidableEq

/-- WHERE clause shapes the handler builds: none, or a strict lower bound on
one column (the cursor predicate). -/
inductive SqlPred where
  | always : SqlPred
  | gtCol : String → Int → SqlPred
deriving DecidableEq

/-- Shape of a data query built by the handler: predicate, ORDER BY list and
the LIMIT/OFFSET parameters as the (possibly NaN) JS numbers passed to it.
`offset = none` means the SQL text has no OFFSET clause at all. -/
structure SqlQuery where
  pred : SqlPred
  orderBy : List SortKey
  limit : JsNum
  offset : Option JsNum
deriving DecidableEq

/-- Three-way comparison of integers. -/
def cmpInt (x y : Int) : Ordering :=
  if x < y then .lt else if y < x then .gt else .eq

/-- PostgreSQL comparison of two possibly-NULL cells under one sort key:
NULLS LAST for an ascending key, NULLS FIRST for a descending key. -/
def cmpOptVal (desc : Bool) : Option Int → Option Int → Ordering
  | none, none => .eq
  | none, some _ => if desc then .lt else .gt
  | some _, none => if desc then .gt else .lt
  | some x, some y => if desc then cmpInt y x else cmpInt x y

/-- Lexicographic row comparison along a list of sort keys. -/
def cmpRows (keys : List SortKey) (r s : Row) : Ordering :=
  match keys with
  | [] => .eq
  | k :: ks =>
    let o := cmpOptVal k.desc (r.get k.col) (s.get k.col)
    if o = .eq then cmpRows ks r s else o

/-- Boolean "r sorts no later than s" under the given keys. -/
def rowLe (keys : List SortKey) (r s : Row) : Bool :=
  cmpRows keys r s != Ordering.gt

/-- Whether a row satisfies the WHERE clause (NULL > bound is not true). -/
def rowPasses (p : SqlPred) (r : Row) : Bool :=
  match p with
  | .always => true
  | .gtCol c b =>
    match r.get c with
    | some v => b < v
    | none => false

section SortModel

variable {α : Type}

/-- Insertion into a sorted list under a boolean comparison. -/
def insertOrd (le : α → α → Bool) (a : α) : List α → List α
  | [] => [a]
  | b :: l => if le a b then a :: b :: l else b :: insertOrd le a l

/-- Insertion sort under a boolean comparison (the model of ORDER BY). -/
def sortOrd (le : α → α → Bool) : List α → List α
  | [] => []
  | a :: l => insertOrd le a (sortOrd le l)

end SortModel

/-- Semantics of a data query over the table contents: filter by the
predicate, sort by the ORDER BY keys, skip OFFSET rows, return LIMIT rows.
A NaN parameter (the serialization of JS NaN) or a negative LIMIT/OFFSET
makes PostgreSQL reject the query. -/
def runQuery (rows : List Row) (q : SqlQuery) : Except String (List Row) :=
  match q.limit with
  | .nan => .error "invalid input syntax for LIMIT parameter"
  | .num l =>
    if l < 0 then .error "LIMIT must not be negative"
    else
      match q.offset with
      | some .nan => .error "invalid input syntax for OFFSET parameter"
      | some (.num o) =>
        if o < 0 then .error "OFFSET must not be negative"
        else
          .ok (((sortOrd (rowLe q.orderBy) (rows.filter (rowPasses q.pred))).drop o.toNat).take l.toNat)
      | none =>
        .ok ((sortOrd (rowLe q.orderBy) (rows.filter (rowPasses q.pred))).take l.toNat)

instance {ε α : Type} [DecidableEq ε] [DecidableEq α] : DecidableEq (Except ε α) := fun a b =>
  match a, b with
  | .error e, .error f =>
    if h : e = f then .isTrue (congrArg Except.error h)
    else .isFalse (fun he => h (Except.error.inj he))
  | .ok x, .ok y =>
    if h : x = y then .isTrue (congrArg Except.ok h)
    else .isFalse (fun he => h (Except.ok.inj he))
  | .error _, .ok _ => .isFalse (fun he => Except.noConfusion he)
  | .ok _, .error _ => .isFalse (fun he => Except.noConfusion he)

/-- Outcomes of the five introspection queries the metadata helpers run
against information_schema: the column list with data types, the primary-key
constraint columns (once with LIMIT 1, once in full), the foreign-key
constraint rows (column, referenced table, referenced column), and the
unique-constraint columns.  An `Except.error` value models the underlying
query failing. -/
structure Introspection where
  colsQ : Except String (List (String × String))
  pk1Q : Except String (List String)
  pkSetQ : Except String (List String)
  fkQ : Except String (List (String × String × String))
  uniqueQ : Except String (List String)
deriving DecidableEq

/-- Model of getPrimaryKeyColumn: first row of the LIMIT 1 primary-key query,
or null when the query returns nothing or fails (its catch returns null). -/
def getPrimaryKeyColumn (intro : Introspection) : Option String :=
  match intro.pk1Q with
  | .ok rows => rows.head?
  | .error _ => none

/-- Model of getPrimaryKeyColumns: the set of primary-key columns, empty when
the query fails (its catch returns an empty set). -/
def getPrimaryKeyColumns (intro : Introspection) : List String :=
  match intro.pkSetQ with
  | .ok rows => rows
  | .error _ => []

/-- Model of getForeignKeyRelations: the foreign-key rows, empty when the
query fails (its catch returns an empty object). -/
def getForeignKeyRelations (intro : Introspection) : List (String × String × String) :=
  match intro.fkQ with
  | .ok rows => rows
  | .error _ => []

/-- Model of getUniqueColumns: the unique-constraint columns, empty when the
query fails (its catch returns an empty set). -/
def getUniqueColumns (intro : Introspection) : List String :=
  match intro.uniqueQ with
  | .ok rows => rows
  | .error _ => []

/-- Lookup in the foreign-key object built by getForeignKeyRelations; its
forEach assignment makes the last row for a column win. -/
def fkLookup (fks : List (String × String × String)) (c : String) : Option (String × String) :=
  (fks.reverse.find? (fun x => decide (x.1 = c))).map (fun x => x.2)

/-- Per-column metadata assembled by getColumnMetadata. -/
structure ColMeta where
  dataType : String
  isPrimaryKey : Bool
  isForeignKey : Bool
  foreignKeyRef : Option (String × String)
  isUnique : Bool
deriving DecidableEq

/-- Model of getColumnMetadata: on success of the column-list query, one
entry per column in ordinal order, annotated from the three key-constraint
helpers; when the column-list query fails its own catch returns an empty
object. -/
def getColumnMetadata (intro : Introspection) : List (String × ColMeta) :=
  match intro.colsQ with
  | .error _ => []
  | .ok cols =>
    let pkSet := getPrimaryKeyColumns intro
    let fks := getForeignKeyRelations intro
    let uniq := getUniqueColumns intro
    cols.map fun nd =>
      (nd.1,
        { dataType := nd.2
          isPrimaryKey := pkSet.contains nd.1
          isForeignKey := (fkLookup fks nd.1).isSome
          foreignKeyRef := fkLookup fks nd.1
          isUnique := uniq.contains nd.1 })

/-- Lookup of a column's metadata (JS property access on the metadata object). -/
def lookupMeta (cols : List (String × ColMeta)) (c : String) : Option ColMeta :=
  (cols.find? (fun x => decide (x.1 = c))).map (fun x => x.2)

/-- Model of the sanitizeTableName test: the name matches [A-Za-z0-9_.]+ in
full (at least one character, every character alphanumeric, underscore or
dot). -/
def tableNameOk (s : String) : Bool :=
  s.length > 0 && s.toList.all (fun c => c.isAlphanum || c = '_' || c = '.')

/-- The raw query-string parameters of a page request; `none` means the
parameter is absent from the URL. -/
structure RawRequest where
  page : Option String := none
  limit : Option String := none
  cursor : Option Int := none
  sortColumn : Option String := none
  sortDirection : Option String := none
deriving DecidableEq

/-- JS `x || dflt` on an optional string (absent or empty falls to the default). -/
def orStr (o : Option String) (dflt : String) : String :=
  match o with
  | some s => if s = "" then dflt else s
  | none => dflt

/-- JS `req.query.sortColumn ? req.query.sortColumn : null` (an empty string
is falsy). -/
def normSort : Option String → Option String
  | none => none
  | some s => if s = "" then none else some s

/-- The branch of the handler's if/else chain that built the data query,
named as in the specification. -/
inductive Strategy where
  | CURSOR : Strategy
  | OFFSET_FIRST_PAGE : Strategy
  | OFFSET_FALLBACK : Strategy
  | OFFSET_SORTED : Strategy
deriving DecidableEq

/-- An HTTP error response: status code and error message. -/
structure ErrorResponse where
  status : Nat
  error : String
deriving DecidableEq

/-- The JSON body of a successful page response. -/
structure Response where
  rows : List Row
  totalCount : Nat
  page : JsNum
  limit : JsNum
  isApproximate : Bool
  nextCursor : Option Int
  hasPrimaryKey : Bool
  columns : List (String × ColMeta)
deriving DecidableEq

/-- Everything observable about one run of the handler: the response sent,
whether the COUNT query was reached, the data query issued (if any) and the
branch that issued it. -/
structure Outcome where
  result : Except ErrorResponse Response
  countExecuted : Bool
  dataQuery : Option SqlQuery
  strategy : Option Strategy
deriving DecidableEq

/-- Short-circuit outcome: an error response sent before the COUNT query. -/
def errOutcome (status : Nat) (msg : String) : Outcome :=
  { result := .error { status := status, error := msg }
    countExecuted := false
    dataQuery := none
    strategy := none }

/-- The database-side state a request sees: the introspection results for
the table and the table's rows (the model covers requests against an
existing table, so the COUNT query succeeds and returns the row count). -/
structure Env where
  intro : Introspection
  rows : List Row
deriving DecidableEq

/-- The handler's if/else chain choosing the query shape, transcribed from
the source: a set sort column always wins (OFFSET_SORTED, offset
(page-1)*limit, primary key appended ascending when it exists and differs);
else a primary key plus a cursor picks the cursor scan (WHERE pk > cursor
ORDER BY pk ASC LIMIT limit, no OFFSET); else a primary key with page === 1
picks the first-page scan (ORDER BY pk ASC LIMIT limit); else the offset
fallback, ordered by the primary key when one exists. -/
def planQuery (pk : Option String) (sortColumn : Option String) (sdesc : Bool)
    (cursor : Option Int) (page limit : JsNum) : Strategy × SqlQuery :=
  match sortColumn with
  | some sc =>
    let tie : List SortKey :=
      match pk with
      | some p => if sc = p then [] else [⟨p, false⟩]
      | none => []
    (.OFFSET_SORTED,
      { pred := .always, orderBy := ⟨sc, sdesc⟩ :: tie, limit := limit
        offset := some ((page.subInt 1).mul limit) })
  | none =>
    match pk, cursor with
    | some p, some c =>
      (.CURSOR, { pred := .gtCol p c, orderBy := [⟨p, false⟩], limit := limit, offset := none })
    | some p, none =>
      if page.eqInt 1 then
        (.OFFSET_FIRST_PAGE, { pred := .always, orderBy := [⟨p, false⟩], limit := limit, offset := none })
      else
        (.OFFSET_FALLBACK,
          { pred := .always, orderBy := [⟨p, false⟩], limit := limit
            offset := some ((page.subInt 1).mul limit) })
    | none, _ =>
      (.OFFSET_FALLBACK,
        { pred := .always, orderBy := [], limit := limit
          offset := some ((page.subInt 1).mul limit) })

/-- The nextCursor computation after the data query ran: null for a custom
sort; otherwise the primary-key cell of the last returned row when a primary
key exists and at least one row came back, null otherwise. -/
def computeNextCursor (strat : Strategy) (pk : Option String) (rows : List Row) : Option Int :=
  match strat with
  | .OFFSET_SORTED => none
  | _ =>
    match pk with
    | some p => rows.getLast?.bind (fun r => r.get p)
    | none => none

/-- Execution of the planned data query and assembly of the response; a
query failure is caught at the request boundary and sent as a 500 with the
database message.  The COUNT query has already run at this point. -/
def runPlan (env : Env) (page limit : JsNum) (pk : Option String)
    (cols : List (String × ColMeta)) (sq : Strategy × SqlQuery) : Outcome :=
  match runQuery env.rows sq.2 with
  | .error msg =>
    { result := .error { status := 500, error := msg }
      countExecuted := true
      dataQuery := some sq.2
      strategy := some sq.1 }
  | .ok rows =>
    { result := .ok
        { rows := rows
          totalCount := env.rows.length
          page := page
          limit := limit
          isApproximate := false
          nextCursor := computeNextCursor sq.1 pk rows
          hasPrimaryKey := pk.isSome
          columns := cols }
      countExecuted := true
      dataQuery := some sq.2
      strategy := some sq.1 }

/-- The GET /api/tables/:tableName handler: sanitize the table name (a
failure is thrown and caught at the boundary as a 500 "Invalid table name"),
parse page and limit with parseInt, reject page < 1 or limit < 1 (NaN
compares false), resolve the primary key and the column metadata, reject a
set sort column that is not a resolved column, then run the COUNT query and
the planned data query and assemble the response. -/
def getPage (tableName : String) (req : RawRequest) (env : Env) : Outcome :=
  if !(tableNameOk tableName) then errOutcome 500 "Invalid table name"
  else
    let page := parseIntJs (orStr req.page "1")
    let limit := parseIntJs (orStr req.limit "100")
    let sortColumn := normSort req.sortColumn
    let sdesc := req.sortDirection = some "desc"
    if page.ltInt 1 || limit.ltInt 1 then
      errOutcome 400 "Page and limit must be positive integers"
    else
      let primaryKeyColumn := getPrimaryKeyColumn env.intro
      let columnMetadata := getColumnMetadata env.intro
      match sortColumn with
      | some sc =>
        if (lookupMeta columnMetadata sc).isNone then
          errOutcome 400 "Invalid sort column"
        else
          runPlan env page limit primaryKeyColumn columnMetadata
            (planQuery primaryKeyColumn (some sc) sdesc req.cursor page limit)
      | none =>
        runPlan env page limit primaryKeyColumn columnMetadata
          (planQuery primaryKeyColumn none sdesc req.cursor page limit)

/-- The connection registry of the db/connection module: the only shared
server-side state the route can see, mapping connection ids to live pools
(modelled by the Env each pool answers with). -/
structure ServerState where
  connections : List (String × Env)
deriving DecidableEq

/-- Model of getPool: look a connection id up in the registry. -/
def getPool (st : ServerState) (cid : String) : Option Env :=
  (st.connections.find? (fun x => decide (x.1 = cid))).map (fun x => x.2)

/-- The full route including the requireConnection middleware, as explicit
state passing over the connection registry: the route only reads the
registry (the source performs no assignment to it), so the state comes back
unchanged alongside the response. -/
def route (cid : Option String) (tableName : String) (req : RawRequest)
    (st : ServerState) : Except ErrorResponse Response × ServerState :=
  match cid with
  | none => (.error { status := 400, error := "Connection ID header required" }, st)
  | some id =>
    match getPool st id with
    | none => (.error { status := 503, error := "Not connected to database or invalid connection ID" }, st)
    | some env => ((getPage tableName req env).result, st)

/-- A default (empty) response body, used to extract concrete responses. -/
def emptyResp : Response :=
  { rows := [], totalCount := 0, page := .nan, limit := .nan, isApproximate := false
    nextCursor := none, hasPrimaryKey := false, columns := [] }

/-- Extract the success body of a handler result (defaulting when it failed). -/
def okOr : Except ErrorResponse Response → Response
  | .ok r => r
  | .error _ => emptyResp

/-- Introspection fixture: a table with columns id (the primary key) and x. -/
def introW : Introspection :=
  { colsQ := .ok [("id", "integer"), ("x", "integer")]
    pk1Q := .ok ["id"]
    pkSetQ := .ok ["id"]
    fkQ := .ok []
    uniqueQ := .ok [] }

/-- Row fixture with primary key i. -/
def rowW (i : Int) : Row := { cells := [("id", i), ("x", 2 * i)] }

/-- Environment fixture: three rows stored out of key order. -/
def envW : Env := { intro := introW, rows := [rowW 2, rowW 1, rowW 3] }

/-- Introspection fixture whose column-list query fails. -/
def introColsFailW : Introspection :=
  { colsQ := .error "connection reset"
    pk1Q := .ok ["id"]
    pkSetQ := .ok ["id"]
    fkQ := .ok []
    uniqueQ := .ok [] }

/-- Environment fixture whose column-list introspection fails. -/
def envColsFailW : Env := { intro := introColsFailW, rows := [rowW 1, rowW 2] }

/-- Introspection fixture for a table without a primary key. -/
def introNoPkW : Introspection :=
  { colsQ := .ok [("x", "integer")]
    pk1Q := .ok []
    pkSetQ := .ok []
    fkQ := .ok []
    uniqueQ := .ok [] }

/-- Environment fixture for a table without a primary key. -/
def envNoPkW : Env := { intro := introNoPkW, rows := [rowW 1, rowW 2, rowW 3] }

/-- A one-connection registry fixture. -/
def stW : ServerState := { connections := [("conn1", envW)] }

/-- The primary-key tiebreaker the sorted branch appends: the primary key
ascending when one exists and differs from the sort column, nothing
otherwise. -/
def pkTie (pk : Option String) (sc : String) : List SortKey :=
  match pk with
  | some p => if sc = p then [] else [⟨p, false⟩]
  | none => []

/-- Whether an HTTP status code is a client error (4xx). -/
def isClientError (s : Nat) : Bool :=
  decide (400 ≤ s) && decide (s < 500)

/-- Concrete response of a default first-page request against the fixture. -/
def respW8 : Response := okOr (getPage "users" {} envW).result

/-- Concrete response of a request against the fixture whose column-list
introspection fails. -/
def respC6 : Response := okOr (getPage "users" {} envColsFailW).result

/-- Concrete response of a limit-1 first-page request against the fixture. -/
def respC1a : Response := okOr (getPage "users" { limit := some "1" } envW).result

/-- Concrete response of the follow-up cursor request against the fixture. -/
def respC1b : Response := okOr (getPage "users" { cursor := some 1 } envW).result

section SortLemmas

variable {α : Type} {le : α → α → Bool}

theorem mem_insertOrd (a x : α) :
    ∀ l : List α, x ∈ insertOrd le a l ↔ x = a ∨ x ∈ l
  | [] => by simp [insertOrd]
  | b :: l => by
    simp only [insertOrd]
    by_cases h : le a b = true
    · simp [h, List.mem_cons]
    · simp only [if_neg h, List.mem_cons, mem_insertOrd a x l]
      tauto

theorem perm_insertOrd (a : α) : ∀ l : List α, (insertOrd le a l).Perm (a :: l)
  | [] => List.Perm.refl _
  | b :: l => by
    simp only [insertOrd]
    by_cases h : le a b = true
    · simp [h]
    · simp only [if_neg h]
      exact ((perm_insertOrd a l).cons b).trans (List.Perm.swap a b l)

theorem perm_sortOrd : ∀ l : List α, (sortOrd le l).Perm l
  | [] => List.Perm.refl _
  | a :: l => by
    simp only [sortOrd]
    exact (perm_insertOrd a (sortOrd le l)).trans ((perm_sortOrd l).cons a)

theorem mem_sortOrd {x : α} {l : List α} : x ∈ sortOrd le l ↔ x ∈ l :=
  (perm_sortOrd l).mem_iff

theorem pairwise_insertOrd
    (htot : ∀ x y : α, le x y = true ∨ le y x = true)
    (htrans : ∀ x y z : α, le x y = true → le y z = true → le x z = true)
    (a : α) : ∀ l : List α, l.Pairwise (fun x y => le x y = true) →
      (insertOrd le a l).Pairwise (fun x y => le x y = true)
  | [], _ => by simp [insertOrd]
  | b :: l, h => by
    obtain ⟨hb, hl⟩ := List.pairwise_cons.mp h
    simp only [insertOrd]
    by_cases hab : le a b = true
    · simp only [hab, if_true]
      refine List.pairwise_cons.mpr ⟨?_, h⟩
      intro x hx
      rcases List.mem_cons.mp hx with rfl | hx
      · exact hab
      · exact htrans a b x hab (hb x hx)
    · simp only [if_neg hab]
      refine List.pairwise_cons.mpr ⟨?_, pairwise_insertOrd htot htrans a l hl⟩
      intro x hx
      rcases (mem_insertOrd a x l).mp hx with rfl | hx
      · exact (htot x b).resolve_left hab
      · exact hb x hx

theorem sorted_sortOrd
    (htot : ∀ x y : α, le x y = true ∨ le y x = true)
    (htrans : ∀ x y z : α, le x y = true → le y z = true → le x z = true) :
    ∀ l : List α, (sortOrd le l).Pairwise (fun x y => le x y = true)
  | [] => by simp [sortOrd]
  | a :: l => by
    simp only [sortOrd]
    exact pairwise_insertOrd htot htrans a (sortOrd le l) (sorted_sortOrd htot htrans l)

theorem mem_of_getLastEq {l : List α} {y : α} (h : l.getLast? = some y) : y ∈ l := by
  have hy : y ∈ l.getLast? := Option.mem_def.mpr h
  obtain ⟨hne, heq⟩ := List.mem_getLast?_eq_getLast hy
  rw [heq]
  exact List.getLast_mem hne

theorem pairwise_le_getLast {R : α → α → Prop} :
    ∀ {l : List α}, l.Pairwise R → ∀ {y x : α}, l.getLast? = some y → x ∈ l → x = y ∨ R x y
  | [], _, _, _, hlast, _ => by simp at hlast
  | [a], _, y, x, hlast, hx => by
    rw [List.getLast?_singleton] at hlast
    rcases List.mem_singleton.mp hx with rfl
    exact Or.inl (Option.some.inj hlast)
  | a :: b :: l, h, y, x, hlast, hx => by
    rw [List.getLast?_cons_cons] at hlast
    obtain ⟨ha, ht⟩ := List.pairwise_cons.mp h
    rcases List.mem_cons.mp hx with rfl | hx
    · exact Or.inr (ha y (mem_of_getLastEq hlast))
    · exact pairwise_le_getLast ht hlast hx

end SortLemmas

theorem cmpInt_ne_gt {x y : Int} : ¬(cmpInt x y = Ordering.gt) ↔ x ≤ y := by
  unfold cmpInt
  split_ifs with h1 h2 <;> simp <;> omega

theorem cmpRows_single (k : SortKey) (r s : Row) :
    cmpRows [k] r s = cmpOptVal k.desc (r.get k.col) (s.get k.col) := by
  simp only [cmpRows]
  split
  next h => exact h.symm
  next h => rfl

theorem rowLe_single_iff {p : String} {r s : Row} :
    rowLe [⟨p, false⟩] r s = true ↔ ¬(cmpOptVal false (r.get p) (s.get p) = Ordering.gt) := by
  unfold rowLe
  rw [cmpRows_single]
  cases cmpOptVal false (r.get p) (s.get p) <;> decide

theorem rowLe_single_total (p : String) (r s : Row) :
    rowLe [⟨p, false⟩] r s = true ∨ rowLe [⟨p, false⟩] s r = true := by
  rw [rowLe_single_iff, rowLe_single_iff]
  cases hr : r.get p <;> cases hs : s.get p <;>
    (simp [cmpOptVal, cmpInt_ne_gt]; try omega)

theorem rowLe_single_trans (p : String) (r s t : Row) :
    rowLe [⟨p, false⟩] r s = true → rowLe [⟨p, false⟩] s t = true →
      rowLe [⟨p, false⟩] r t = true := by
  rw [rowLe_single_iff, rowLe_single_iff, rowLe_single_iff]
  cases hr : r.get p <;> cases hs : s.get p <;> cases ht : t.get p <;>
    (simp [cmpOptVal, cmpInt_ne_gt]; try omega)

theorem rowLe_single_some {p : String} {r s : Row} {c : Int}
    (hle : rowLe [⟨p, false⟩] r s = true) (hs : s.get p = some c) :
    ∃ v, r.get p = some v ∧ v ≤ c := by
  rw [rowLe_single_iff, hs] at hle
  cases hr : r.get p with
  | none => rw [hr] at hle; simp [cmpOptVal] at hle
  | some v =>
    rw [hr] at hle
    simp [cmpOptVal, cmpInt_ne_gt] at hle
    exact ⟨v, rfl, hle⟩

theorem runQuery_num_noOffset {rows : List Row} {q : SqlQuery} {l : Int}
    (hl : q.limit = .num l) (h0 : 0 ≤ l) (hoff : q.offset = none) :
    runQuery rows q =
      .ok ((sortOrd (rowLe q.orderBy) (rows.filter (rowPasses q.pred))).take l.toNat) := by
  have hnl : ¬(l < 0) := by omega
  simp [runQuery, hl, hoff, hnl]

theorem runQuery_num_offset {rows : List Row} {q : SqlQuery} {l o : Int}
    (hl : q.limit = .num l) (h0 : 0 ≤ l) (hoff : q.offset = some (.num o)) (ho : 0 ≤ o) :
    runQuery rows q =
      .ok (((sortOrd (rowLe q.orderBy) (rows.filter (rowPasses q.pred))).drop o.toNat).take l.toNat) := by
  have hnl : ¬(l < 0) := by omega
  have hno : ¬(o < 0) := by omega
  simp [runQuery, hl, hoff, hnl, hno]

theorem runQuery_ok_inv {rows : List Row} {q : SqlQuery} {res : List Row}
    (h : runQuery rows q = .ok res) :
    ∃ n m, res = ((sortOrd (rowLe q.orderBy) (rows.filter (rowPasses q.pred))).drop m).take n := by
  unfold runQuery at h
  split at h
  · simp at h
  · split at h
    · simp at h
    · split at h
      · simp at h
      · split at h
        · simp at h
        · exact ⟨_, _, (Except.ok.inj h).symm⟩
      · rename_i x1 l hlim hnl x2 hoff
        obtain rfl := (Except.ok.inj h)
        exact ⟨l.toNat, 0, by rw [List.drop_zero]⟩

theorem runQuery_ok_mem {rows : List Row} {q : SqlQuery} {res : List Row}
    (h : runQuery rows q = .ok res) :
    ∀ r ∈ res, r ∈ rows ∧ rowPasses q.pred r = true := by
  obtain ⟨n, m, rfl⟩ := runQuery_ok_inv h
  intro r hr
  have h1 : r ∈ sortOrd (rowLe q.orderBy) (rows.filter (rowPasses q.pred)) :=
    List.mem_of_mem_drop (List.mem_of_mem_take hr)
  have h2 := mem_sortOrd.mp h1
  exact ⟨(List.mem_filter.mp h2).1, (List.mem_filter.mp h2).2⟩

theorem runQuery_ok_sorted {rows : List Row} {q : SqlQuery} {res : List Row} {p : String}
    (horder : q.orderBy = [⟨p, false⟩]) (h : runQuery rows q = .ok res) :
    res.Pairwise (fun r s => rowLe [⟨p, false⟩] r s = true) := by
  obtain ⟨n, m, rfl⟩ := runQuery_ok_inv h
  rw [horder]
  have hs : (sortOrd (rowLe [⟨p, false⟩]) (rows.filter (rowPasses q.pred))).Pairwise
      (fun r s => rowLe [⟨p, false⟩] r s = true) :=
    sorted_sortOrd (rowLe_single_total p) (rowLe_single_trans p) _
  exact List.Pairwise.sublist ((List.take_sublist _ _).trans (List.drop_sublist _ _)) hs

theorem rowPasses_gt {p : String} {c : Int} {r : Row} :
    rowPasses (.gtCol p c) r = true ↔ ∃ v, r.get p = some v ∧ c < v := by
  unfold rowPasses
  cases hr : r.get p <;> simp [hr]

theorem runPlan_eq_of_ok {env : Env} {page limit : JsNum} {pk : Option String}
    {cols : List (String × ColMeta)} {strat : Strategy} {q : SqlQuery} {rows : List Row}
    (h : runQuery env.rows q = .ok rows) :
    runPlan env page limit pk cols (strat, q) =
      { result := .ok
          { rows := rows, totalCount := env.rows.length, page := page, limit := limit
            isApproximate := false, nextCursor := computeNextCursor strat pk rows
            hasPrimaryKey := pk.isSome, columns := cols }
        countExecuted := true, dataQuery := some q, strategy := some strat } := by
  simp [runPlan, h]

theorem runPlan_ok_inv {env : Env} {page limit : JsNum} {pk : Option String}
    {cols : List (String × ColMeta)} {sq : Strategy × SqlQuery} {resp : Response}
    (h : (runPlan env page limit pk cols sq).result = .ok resp) :
    ∃ rows, runQuery env.rows sq.2 = .ok rows ∧
      resp = { rows := rows, totalCount := env.rows.length, page := page, limit := limit
               isApproximate := false, nextCursor := computeNextCursor sq.1 pk rows
               hasPrimaryKey := pk.isSome, columns := cols } := by
  unfold runPlan at h
  split at h
  · simp at h
  · next rows heq => exact ⟨rows, heq, (Except.ok.inj h).symm⟩

theorem runPlan_error_status {env : Env} {page limit : JsNum} {pk : Option String}
    {cols : List (String × ColMeta)} {sq : Strategy × SqlQuery} {e : ErrorResponse}
    (h : (runPlan env page limit pk cols sq).result = .error e) : e.status = 500 := by
  unfold runPlan at h
  split at h
  · rw [← Except.error.inj h]
  · simp at h

theorem runPlan_countExecuted {env : Env} {page limit : JsNum} {pk : Option String}
    {cols : List (String × ColMeta)} {sq : Strategy × SqlQuery} :
    (runPlan env page limit pk cols sq).countExecuted = true := by
  unfold runPlan
  split <;> rfl

theorem runPlan_strategy {env : Env} {page limit : JsNum} {pk : Option String}
    {cols : List (String × ColMeta)} {sq : Strategy × SqlQuery} :
    (runPlan env page limit pk cols sq).strategy = some sq.1 := by
  unfold runPlan
  split <;> rfl

theorem runPlan_dataQuery {env : Env} {page limit : JsNum} {pk : Option String}
    {cols : List (String × ColMeta)} {sq : Strategy × SqlQuery} :
    (runPlan env page limit pk cols sq).dataQuery = some sq.2 := by
  unfold runPlan
  split <;> rfl

theorem getPage_badName {t : String} {req : RawRequest} {env : Env}
    (hname : tableNameOk t = false) :
    getPage t req env = errOutcome 500 "Invalid table name" := by
  simp [getPage, hname]

theorem getPage_badParams {t : String} {req : RawRequest} {env : Env}
    (hname : tableNameOk t = true)
    (hval : ((parseIntJs (orStr req.page "1")).ltInt 1
      || (parseIntJs (orStr req.limit "100")).ltInt 1) = true) :
    getPage t req env = errOutcome 400 "Page and limit must be positive integers" := by
  simp [getPage, hname, hval]

theorem getPage_badSort {t : String} {req : RawRequest} {env : Env} {sc : String}
    (hname : tableNameOk t = true)
    (hpv : (parseIntJs (orStr req.page "1")).ltInt 1 = false)
    (hlv : (parseIntJs (orStr req.limit "100")).ltInt 1 = false)
    (hsort : normSort req.sortColumn = some sc)
    (hlook : lookupMeta (getColumnMetadata env.intro) sc = none) :
    getPage t req env = errOutcome 400 "Invalid sort column" := by
  simp [getPage, hname, hpv, hlv, hsort, hlook]

theorem getPage_noSort_eq {t : String} {req : RawRequest} {env : Env}
    (hname : tableNameOk t = true)
    (hpv : (parseIntJs (orStr req.page "1")).ltInt 1 = false)
    (hlv : (parseIntJs (orStr req.limit "100")).ltInt 1 = false)
    (hsort : normSort req.sortColumn = none) :
    getPage t req env =
      runPlan env (parseIntJs (orStr req.page "1")) (parseIntJs (orStr req.limit "100"))
        (getPrimaryKeyColumn env.intro) (getColumnMetadata env.intro)
        (planQuery (getPrimaryKeyColumn env.intro) none
          (decide (req.sortDirection = some "desc")) req.cursor
          (parseIntJs (orStr req.page "1")) (parseIntJs (orStr req.limit "100"))) := by
  simp [getPage, hname, hpv, hlv, hsort]

theorem getPage_sorted_eq {t : String} {req : RawRequest} {env : Env} {sc : String}
    (hname : tableNameOk t = true)
    (hpv : (parseIntJs (orStr req.page "1")).ltInt 1 = false)
    (hlv : (parseIntJs (orStr req.limit "100")).ltInt 1 = false)
    (hsort : normSort req.sortColumn = some sc)
    (hlook : (lookupMeta (getColumnMetadata env.intro) sc).isNone = false) :
    getPage t req env =
      runPlan env (parseIntJs (orStr req.page "1")) (parseIntJs (orStr req.limit "100"))
        (getPrimaryKeyColumn env.intro) (getColumnMetadata env.intro)
        (planQuery (getPrimaryKeyColumn env.intro) (some sc)
          (decide (req.sortDirection = some "desc")) req.cursor
          (parseIntJs (orStr req.page "1")) (parseIntJs (orStr req.limit "100"))) := by
  simp [getPage, hname, hpv, hlv, hsort, hlook]

theorem getPage_ok_inv {t : String} {req : RawRequest} {env : Env} {resp : Response}
    (h : (getPage t req env).result = .ok resp) :
    tableNameOk t = true ∧
    getPage t req env =
      runPlan env (parseIntJs (orStr req.page "1")) (parseIntJs (orStr req.limit "100"))
        (getPrimaryKeyColumn env.intro) (getColumnMetadata env.intro)
        (planQuery (getPrimaryKeyColumn env.intro) (normSort req.sortColumn)
          (decide (req.sortDirection = some "desc")) req.cursor
          (parseIntJs (orStr req.page "1")) (parseIntJs (orStr req.limit "100"))) := by
  cases hname : tableNameOk t with
  | false => rw [getPage_badName hname] at h; simp [errOutcome] at h
  | true =>
    refine ⟨rfl, ?_⟩
    cases hval : ((parseIntJs (orStr req.page "1")).ltInt 1
        || (parseIntJs (orStr req.limit "100")).ltInt 1) with
    | true => rw [getPage_badParams hname hval] at h; simp [errOutcome] at h
    | false =>
      obtain ⟨hpv, hlv⟩ := Bool.or_eq_false_iff.mp hval
      cases hsort : normSort req.sortColumn with
      | none => rw [getPage_noSort_eq hname hpv hlv hsort]
      | some sc =>
        cases hlook : (lookupMeta (getColumnMetadata env.intro) sc).isNone with
        | true =>
          rw [getPage_badSort hname hpv hlv hsort (Option.isNone_iff_eq_none.mp hlook)] at h
          simp [errOutcome] at h
        | false =>
          rw [getPage_sorted_eq hname hpv hlv hsort hlook]

theorem planQuery_sorted (pk : Option String) (sc : String) (d : Bool)
    (cur : Option Int) (P L : JsNum) :
    planQuery pk (some sc) d cur P L =
      (.OFFSET_SORTED,
        { pred := .always, orderBy := ⟨sc, d⟩ :: pkTie pk sc, limit := L
          offset := some ((P.subInt 1).mul L) }) := by
  cases pk <;> rfl

theorem planQuery_cursor (p : String) (d : Bool) (c : Int) (P L : JsNum) :
    planQuery (some p) none d (some c) P L =
      (.CURSOR, { pred := .gtCol p c, orderBy := [⟨p, false⟩], limit := L, offset := none }) :=
  rfl

theorem planQuery_first (p : String) (d : Bool) (P L : JsNum) (hP : P.eqInt 1 = true) :
    planQuery (some p) none d none P L =
      (.OFFSET_FIRST_PAGE,
        { pred := .always, orderBy := [⟨p, false⟩], limit := L, offset := none }) := by
  simp [planQuery, hP]

theorem planQuery_fallback_pk (p : String) (d : Bool) (P L : JsNum) (hP : P.eqInt 1 = false) :
    planQuery (some p) none d none P L =
      (.OFFSET_FALLBACK,
        { pred := .always, orderBy := [⟨p, false⟩], limit := L
          offset := some ((P.subInt 1).mul L) }) := by
  simp [planQuery, hP]

theorem planQuery_fallback_nopk (d : Bool) (cur : Option Int) (P L : JsNum) :
    planQuery none none d cur P L =
      (.OFFSET_FALLBACK,
        { pred := .always, orderBy := [], limit := L
          offset := some ((P.subInt 1).mul L) }) := by
  cases cur <;> rfl

theorem planQuery_noSort_orderBy (p : String) (d : Bool) (cur : Option Int) (P L : JsNum) :
    (planQuery (some p) none d cur P L).2.orderBy = [⟨p, false⟩] := by
  cases cur with
  | some c => rfl
  | none =>
    cases hP : P.eqInt 1 with
    | true => rw [planQuery_first p d P L hP]
    | false => rw [planQuery_fallback_pk p d P L hP]

theorem planQuery_noSort_nextCursor (p : String) (d : Bool) (cur : Option Int)
    (P L : JsNum) (rows : List Row) :
    computeNextCursor (planQuery (some p) none d cur P L).1 (some p) rows =
      rows.getLast?.bind (fun r => r.get p) := by
  cases cur with
  | some c => rfl
  | none =>
    cases hP : P.eqInt 1 with
    | true =>
      rw [planQuery_first p d P L hP]
      rfl
    | false =>
      rw [planQuery_fallback_pk p d P L hP]
      rfl

theorem tableNameOk_of_badChar {s : String} {ch : Char} (hch : ch ∈ s.toList)
    (hbad : (ch.isAlphanum || ch = '_' || ch = '.') = false) :
    tableNameOk s = false := by
  unfold tableNameOk
  have hall : s.toList.all (fun c => c.isAlphanum || c = '_' || c = '.') = false := by
    rcases hax : s.toList.all (fun c => c.isAlphanum || c = '_' || c = '.') with _ | _
    · rfl
    · have := List.all_eq_true.mp hax ch hch
      rw [hbad] at this
      exact absurd this (by simp)
  rw [hall, Bool.and_false]

theorem ltInt_one_iff {j : JsNum} : j.ltInt 1 = true ↔ ∃ n : Int, j = .num n ∧ n < 1 := by
  cases j <;> simp [JsNum.ltInt]

theorem ltInt_one_false_of_num {j : JsNum} {n : Int} (hj : j = .num n) (hn : 1 ≤ n) :
    j.ltInt 1 = false := by
  rw [hj]
  simp [JsNum.ltInt]
  omega

theorem takeWhile_digits_nil {l : List Char} (h : ∀ c ∈ l, c.isDigit = false) :
    l.takeWhile Char.isDigit = [] := by
  cases l with
  | nil => rfl
  | cons c rest => simp [List.takeWhile_cons, h c (List.mem_cons_self c rest)]

theorem parseIntJs_nan_of_noDigit {s : String}
    (hs : s.toList.all (fun c => !c.isDigit) = true) : parseIntJs s = .nan := by
  have hnd : ∀ c ∈ s.toList.dropWhile Char.isWhitespace, c.isDigit = false := by
    intro c hc
    have hmem : c ∈ s.toList := (List.dropWhile_sublist _).mem hc
    have := List.all_eq_true.mp hs c hmem
    simpa using this
  unfold parseIntJs
  split
  · next rest heq =>
    rw [heq] at hnd
    have ht : rest.takeWhile Char.isDigit = [] :=
      takeWhile_digits_nil (fun c hc => hnd c (List.mem_cons_of_mem _ hc))
    simp [ht]
  · next rest heq =>
    rw [heq] at hnd
    have ht : rest.takeWhile Char.isDigit = [] :=
      takeWhile_digits_nil (fun c hc => hnd c (List.mem_cons_of_mem _ hc))
    simp [ht]
  · next rest hne1 hne2 =>
    have ht : (s.toList.dropWhile Char.isWhitespace).takeWhile Char.isDigit = [] :=
      takeWhile_digits_nil hnd
    simp [ht]
    intro hx
    exact hnd _ (List.getElem_mem hx)

theorem getPage_noSort_ok_rows {t : String} {req : RawRequest} {env : Env}
    {p : String} {resp : Response}
    (hsort : normSort req.sortColumn = none)
    (hpk : getPrimaryKeyColumn env.intro = some p)
    (h : (getPage t req env).result = .ok resp) :
    resp.rows.Pairwise (fun r s => rowLe [⟨p, false⟩] r s = true) ∧
    resp.nextCursor = resp.rows.getLast?.bind (fun r => r.get p) := by
  obtain ⟨hname, heq⟩ := getPage_ok_inv h
  rw [heq, hsort, hpk] at h
  obtain ⟨rows, hrun, rfl⟩ := runPlan_ok_inv h
  constructor
  · exact runQuery_ok_sorted (planQuery_noSort_orderBy p _ _ _ _) hrun
  · exact planQuery_noSort_nextCursor p _ _ _ _ rows

theorem getPage_cursor_ok_rows {t : String} {req : RawRequest} {env : Env}
    {p : String} {c : Int} {resp : Response}
    (hsort : normSort req.sortColumn = none)
    (hpk : getPrimaryKeyColumn env.intro = some p)
    (hcur : req.cursor = some c)
    (h : (getPage t req env).result = .ok resp) :
    ∀ r ∈ resp.rows, ∃ v, r.get p = some v ∧ c < v := by
  obtain ⟨hname, heq⟩ := getPage_ok_inv h
  rw [heq, hsort, hpk, hcur, planQuery_cursor] at h
  obtain ⟨rows, hrun, rfl⟩ := runPlan_ok_inv h
  intro r hr
  exact rowPasses_gt.mp (runQuery_ok_mem hrun r hr).2

theorem nextCursor_nil {resp : Response} {f : Row → Option Int}
    (h : resp.nextCursor = resp.rows.getLast?.bind f) (he : resp.rows = []) :
    resp.nextCursor = none := by
  rw [h, he]
  rfl

/-- Claim C2: whenever the sort column is set and is a valid column, the
handler uses the OFFSET_SORTED strategy regardless of the cursor or the
requested page: the query has no predicate, orders by the sort column in the
requested direction with the primary key appended ascending exactly when a
primary key exists and differs from the sort column, uses offset
(page-1)*limit, and the response's nextCursor is null. -/
theorem c2_offset_sorted (t : String) (req : RawRequest) (env : Env) (sc : String)
    (pn ln : Int)
    (hname : tableNameOk t = true)
    (hp : parseIntJs (orStr req.page "1") = .num pn) (hpn : 1 ≤ pn)
    (hl : parseIntJs (orStr req.limit "100") = .num ln) (hln : 1 ≤ ln)
    (hsort : normSort req.sortColumn = some sc)
    (hvalid : (lookupMeta (getColumnMetadata env.intro) sc).isSome = true) :
    (getPage t req env).strategy = some .OFFSET_SORTED ∧
    (getPage t req env).dataQuery = some
      { pred := .always
        orderBy := ⟨sc, decide (req.sortDirection = some "desc")⟩ ::
          pkTie (getPrimaryKeyColumn env.intro) sc
        limit := .num ln
        offset := some (.num ((pn - 1) * ln)) } ∧
    (∀ p, getPrimaryKeyColumn env.intro = some p → sc ≠ p →
      pkTie (getPrimaryKeyColumn env.intro) sc = [⟨p, false⟩]) ∧
    (getPrimaryKeyColumn env.intro = some sc →
      pkTie (getPrimaryKeyColumn env.intro) sc = []) ∧
    (getPrimaryKeyColumn env.intro = none →
      pkTie (getPrimaryKeyColumn env.intro) sc = []) ∧
    ∃ resp, (getPage t req env).result = .ok resp ∧ resp.nextCursor = none := by
  have hpv := ltInt_one_false_of_num hp (by omega)
  have hlv := ltInt_one_false_of_num hl hln
  have hlook : (lookupMeta (getColumnMetadata env.intro) sc).isNone = false := by
    rcases Option.isSome_iff_exists.mp hvalid with ⟨v, hv⟩
    rw [hv]
    rfl
  rw [getPage_sorted_eq hname hpv hlv hsort hlook, hp, hl, planQuery_sorted]
  simp only [JsNum.subInt, JsNum.mul]
  have hrun := @runQuery_num_offset env.rows
    { pred := .always
      orderBy := ⟨sc, decide (req.sortDirection = some "desc")⟩ ::
        pkTie (getPrimaryKeyColumn env.intro) sc
      limit := .num ln
      offset := some (.num ((pn - 1) * ln)) }
    ln ((pn - 1) * ln)
    rfl (by omega) rfl (mul_nonneg (by omega) (by omega))
  rw [runPlan_eq_of_ok hrun]
  refine ⟨rfl, rfl, ?_, ?_, ?_, ⟨_, rfl, rfl⟩⟩
  · intro p hpk hne
    rw [hpk]
    simp [pkTie, hne]
  · intro hpk
    rw [hpk]
    simp [pkTie]
  · intro hpk
    rw [hpk]
    rfl

/-- Claim C3: with a primary key, no sort column, no cursor and page 1, the
handler uses the OFFSET_FIRST_PAGE strategy, issues ORDER BY pk ASC LIMIT
limit with no predicate and no OFFSET clause, and nextCursor is the
primary-key cell of the last returned row (null when the table is empty). -/
theorem c3_first_page (t : String) (req : RawRequest) (env : Env) (p : String) (ln : Int)
    (hname : tableNameOk t = true)
    (hp : parseIntJs (orStr req.page "1") = .num 1)
    (hl : parseIntJs (orStr req.limit "100") = .num ln) (hln : 1 ≤ ln)
    (hsort : normSort req.sortColumn = none)
    (hcur : req.cursor = none)
    (hpk : getPrimaryKeyColumn env.intro = some p) :
    (getPage t req env).strategy = some .OFFSET_FIRST_PAGE ∧
    (getPage t req env).dataQuery = some
      { pred := .always, orderBy := [⟨p, false⟩], limit := .num ln, offset := none } ∧
    ∃ resp, (getPage t req env).result = .ok resp ∧
      resp.nextCursor = resp.rows.getLast?.bind (fun r => r.get p) ∧
      (env.rows = [] → resp.nextCursor = none) := by
  have hpv := ltInt_one_false_of_num hp (by omega)
  have hlv := ltInt_one_false_of_num hl hln
  rw [getPage_noSort_eq hname hpv hlv hsort, hp, hl, hpk, hcur,
    planQuery_first p _ _ _ (by decide)]
  have hrun := @runQuery_num_noOffset env.rows
    { pred := .always, orderBy := [⟨p, false⟩], limit := .num ln, offset := none }
    ln rfl (by omega) rfl
  rw [runPlan_eq_of_ok hrun]
  refine ⟨rfl, rfl, _, rfl, rfl, ?_⟩
  intro he
  simp [he, sortOrd, computeNextCursor]

/-- Claim C4: a request that reaches the fallback branch (no sort column,
and either no primary key, or no cursor with page other than 1) runs the
OFFSET_FALLBACK strategy: with a primary key the query is ORDER BY pk ASC
LIMIT limit OFFSET (page-1)*limit and nextCursor is the last returned row's
primary-key cell; without a primary key the query has no ORDER BY keys at
all and nextCursor is null. -/
theorem c4_fallback (t : String) (req : RawRequest) (env : Env) (pn ln : Int)
    (hname : tableNameOk t = true)
    (hp : parseIntJs (orStr req.page "1") = .num pn) (hpn : 1 ≤ pn)
    (hl : parseIntJs (orStr req.limit "100") = .num ln) (hln : 1 ≤ ln)
    (hsort : normSort req.sortColumn = none)
    (hfb : getPrimaryKeyColumn env.intro = none ∨ (req.cursor = none ∧ pn ≠ 1)) :
    (getPage t req env).strategy = some .OFFSET_FALLBACK ∧
    (∀ p, getPrimaryKeyColumn env.intro = some p →
      (getPage t req env).dataQuery = some
        { pred := .always, orderBy := [⟨p, false⟩], limit := .num ln
          offset := some (.num ((pn - 1) * ln)) } ∧
      ∃ resp, (getPage t req env).result = .ok resp ∧
        resp.nextCursor = resp.rows.getLast?.bind (fun r => r.get p) ∧
        (resp.rows = [] → resp.nextCursor = none)) ∧
    (getPrimaryKeyColumn env.intro = none →
      (getPage t req env).dataQuery = some
        { pred := .always, orderBy := [], limit := .num ln
          offset := some (.num ((pn - 1) * ln)) } ∧
      ∃ resp, (getPage t req env).result = .ok resp ∧ resp.nextCursor = none) := by
  have hpv := ltInt_one_false_of_num hp hpn
  have hlv := ltInt_one_false_of_num hl hln
  rw [getPage_noSort_eq hname hpv hlv hsort, hp, hl]
  cases hpk : getPrimaryKeyColumn env.intro with
  | none =>
    rw [planQuery_fallback_nopk]
    simp only [JsNum.subInt, JsNum.mul]
    have hrun := @runQuery_num_offset env.rows
      { pred := .always, orderBy := [], limit := .num ln
        offset := some (.num ((pn - 1) * ln)) }
      ln ((pn - 1) * ln)
      rfl (by omega) rfl (mul_nonneg (by omega) (by omega))
    rw [runPlan_eq_of_ok hrun]
    refine ⟨rfl, ?_, fun _ => ⟨rfl, _, rfl, rfl⟩⟩
    intro p hps
    exact absurd hps (by simp)
  | some p0 =>
    have hcn : req.cursor = none ∧ pn ≠ 1 := by
      rcases hfb with h | h
      · rw [hpk] at h
        exact absurd h (by simp)
      · exact h
    obtain ⟨hcur, hpn1⟩ := hcn
    rw [hcur]
    have heq1 : (JsNum.num pn).eqInt 1 = false := by
      simp [JsNum.eqInt, hpn1]
    rw [planQuery_fallback_pk p0 _ _ _ heq1]
    simp only [JsNum.subInt, JsNum.mul]
    have hrun := @runQuery_num_offset env.rows
      { pred := .always, orderBy := [⟨p0, false⟩], limit := .num ln
        offset := some (.num ((pn - 1) * ln)) }
      ln ((pn - 1) * ln)
      rfl (by omega) rfl (mul_nonneg (by omega) (by omega))
    rw [runPlan_eq_of_ok hrun]
    refine ⟨rfl, ?_, ?_⟩
    · intro p hps
      cases Option.some.inj hps
      exact ⟨rfl, _, rfl, rfl, fun he => nextCursor_nil rfl he⟩
    · intro hps
      exact absurd hps (by simp)

/-- Claim C5: for a request with a valid table name that passes the
page/limit validation, the handler fails with the 400 "Invalid sort column"
error exactly when a sort column is set (non-empty) and absent from the
resolved column metadata, and in that case neither the COUNT query nor any
data query is executed. -/
theorem c5_invalid_sort_column (t : String) (req : RawRequest) (env : Env)
    (hname : tableNameOk t = true)
    (hpv : (parseIntJs (orStr req.page "1")).ltInt 1 = false)
    (hlv : (parseIntJs (orStr req.limit "100")).ltInt 1 = false) :
    ((getPage t req env).result = .error { status := 400, error := "Invalid sort column" } ↔
      ∃ sc, normSort req.sortColumn = some sc ∧
        lookupMeta (getColumnMetadata env.intro) sc = none) ∧
    ((getPage t req env).result = .error { status := 400, error := "Invalid sort column" } →
      (getPage t req env).countExecuted = false ∧ (getPage t req env).dataQuery = none) := by
  cases hsort : normSort req.sortColumn with
  | none =>
    rw [getPage_noSort_eq hname hpv hlv hsort]
    constructor
    · constructor
      · intro h
        have := runPlan_error_status h
        simp at this
      · rintro ⟨sc, hsc, _⟩
        simp at hsc
    · intro h
      have := runPlan_error_status h
      simp at this
  | some sc0 =>
    cases hlook : (lookupMeta (getColumnMetadata env.intro) sc0).isNone with
    | true =>
      have hnone := Option.isNone_iff_eq_none.mp hlook
      rw [getPage_badSort hname hpv hlv hsort hnone]
      exact ⟨⟨fun _ => ⟨sc0, rfl, hnone⟩, fun _ => rfl⟩, fun _ => ⟨rfl, rfl⟩⟩
    | false =>
      rw [getPage_sorted_eq hname hpv hlv hsort hlook]
      constructor
      · constructor
        · intro h
          have := runPlan_error_status h
          simp at this
        · rintro ⟨sc, hsc, hl2⟩
          cases Option.some.inj hsc
          rw [hl2] at hlook
          simp at hlook
      · intro h
        have := runPlan_error_status h
        simp at this

/-- Claim C7 (corrected): a table name containing a character outside
[A-Za-z0-9_.] makes the handler fail with the "Invalid table name" error
before the COUNT query and before any data query; the error is surfaced
with HTTP status 500, which is not a client-error (4xx) status. -/
theorem c7_invalid_table_name (t : String) (req : RawRequest) (env : Env) (ch : Char)
    (hch : ch ∈ t.toList) (hbad : (ch.isAlphanum || ch = '_' || ch = '.') = false) :
    (getPage t req env).result = .error { status := 500, error := "Invalid table name" } ∧
    isClientError 500 = false ∧
    (getPage t req env).countExecuted = false ∧
    (getPage t req env).dataQuery = none := by
  rw [getPage_badName (tableNameOk_of_badChar hch hbad)]
  exact ⟨rfl, by decide, rfl, rfl⟩

/-- Counterexample to claim C7 as stated: the injection attempt
"users; DROP TABLE x" is rejected, but with HTTP status 500, which is a
server error rather than the client error the claim asserts. -/
theorem c7_counterexample :
    (getPage "users; DROP TABLE x" {} envW).result =
      .error { status := 500, error := "Invalid table name" } ∧
    isClientError 500 = false := by
  exact ⟨by decide, by decide⟩

/-- Claim C8: every successful page response carries totalCount equal to the
size of the whole table (the COUNT query is unrestricted by the cursor,
offset or limit of the data query), the COUNT query ran, and isApproximate
is always false. -/
theorem c8_total_count (t : String) (req : RawRequest) (env : Env) (resp : Response)
    (h : (getPage t req env).result = .ok resp) :
    resp.totalCount = env.rows.length ∧ resp.isApproximate = false ∧
    (getPage t req env).countExecuted = true := by
  obtain ⟨hname, heq⟩ := getPage_ok_inv h
  rw [heq] at h ⊢
  obtain ⟨rows, hrun, rfl⟩ := runPlan_ok_inv h
  exact ⟨rfl, rfl, runPlan_countExecuted⟩

/-- Claim C9: the route (with its requireConnection middleware) only reads
the connection registry, so running the same page-1 request twice against
the same registry state leaves the state unchanged and returns the same
response both times. -/
theorem c9_idempotent (cid : Option String) (t : String) (req : RawRequest)
    (st : ServerState)
    (_hpage : parseIntJs (orStr req.page "1") = .num 1)
    (_hcur : req.cursor = none)
    (_hsort : normSort req.sortColumn = none) :
    (route cid t req st).2 = st ∧
    (route cid t req ((route cid t req st).2)).1 = (route cid t req st).1 := by
  have hst : (route cid t req st).2 = st := by
    unfold route
    cases cid with
    | none => rfl
    | some id =>
      cases hpool : getPool st id with
      | none => simp [hpool]
      | some env => simp [hpool]
  exact ⟨hst, by rw [hst]⟩

/-- Claim C10: a page or limit parameter with no digits parses to NaN; the
positivity validation compares NaN as false and lets such a request through
(it is never rejected with the 400 pagination-parameter error), and in
general that rejection happens exactly when page or limit parses to an
integer below 1. -/
theorem c10_nan_validation :
    (∀ s : String, (s.toList.all fun c => !c.isDigit) = true → parseIntJs s = .nan) ∧
    (∀ (t : String) (req : RawRequest) (env : Env) (s : String),
      tableNameOk t = true → req.page = some s → parseIntJs s = .nan →
      (parseIntJs (orStr req.limit "100")).ltInt 1 = false →
      (getPage t req env).result ≠
        .error { status := 400, error := "Page and limit must be positive integers" }) ∧
    (∀ (t : String) (req : RawRequest) (env : Env),
      tableNameOk t = true →
      ((getPage t req env).result =
          .error { status := 400, error := "Page and limit must be positive integers" } ↔
        (∃ n : Int, parseIntJs (orStr req.page "1") = .num n ∧ n < 1) ∨
        (∃ n : Int, parseIntJs (orStr req.limit "100") = .num n ∧ n < 1))) := by
  have hiff : ∀ (t : String) (req : RawRequest) (env : Env),
      tableNameOk t = true →
      ((getPage t req env).result =
          .error { status := 400, error := "Page and limit must be positive integers" } ↔
        (∃ n : Int, parseIntJs (orStr req.page "1") = .num n ∧ n < 1) ∨
        (∃ n : Int, parseIntJs (orStr req.limit "100") = .num n ∧ n < 1)) := by
    intro t req env hname
    constructor
    · intro h
      cases hval : ((parseIntJs (orStr req.page "1")).ltInt 1
          || (parseIntJs (orStr req.limit "100")).ltInt 1) with
      | true =>
        rw [Bool.or_eq_true] at hval
        rcases hval with hv | hv
        · exact Or.inl (ltInt_one_iff.mp hv)
        · exact Or.inr (ltInt_one_iff.mp hv)
      | false =>
        exfalso
        obtain ⟨hpv, hlv⟩ := Bool.or_eq_false_iff.mp hval
        cases hsort : normSort req.sortColumn with
        | none =>
          rw [getPage_noSort_eq hname hpv hlv hsort] at h
          have := runPlan_error_status h
          simp at this
        | some sc =>
          cases hlook : (lookupMeta (getColumnMetadata env.intro) sc).isNone with
          | true =>
            rw [getPage_badSort hname hpv hlv hsort
              (Option.isNone_iff_eq_none.mp hlook)] at h
            simp [errOutcome] at h
          | false =>
            rw [getPage_sorted_eq hname hpv hlv hsort hlook] at h
            have := runPlan_error_status h
            simp at this
    · intro h
      have hval : ((parseIntJs (orStr req.page "1")).ltInt 1
          || (parseIntJs (orStr req.limit "100")).ltInt 1) = true := by
        rw [Bool.or_eq_true]
        rcases h with hv | hv
        · exact Or.inl (ltInt_one_iff.mpr hv)
        · exact Or.inr (ltInt_one_iff.mpr hv)
      rw [getPage_badParams hname hval]
      rfl
  refine ⟨fun s hs => parseIntJs_nan_of_noDigit hs, ?_, hiff⟩
  intro t req env s hname hpage hnan hlv h
  rcases (hiff t req env hname).mp h with ⟨n, hn, hlt⟩ | hv
  · by_cases hse : s = ""
    · rw [hpage] at hn
      simp only [orStr] at hn
      rw [if_pos hse] at hn
      have h1 : parseIntJs "1" = .num 1 := by decide
      rw [h1] at hn
      have := JsNum.num.inj hn
      omega
    · rw [hpage] at hn
      simp only [orStr] at hn
      rw [if_neg hse] at hn
      rw [hnan] at hn
      exact JsNum.noConfusion hn
  · have := ltInt_one_iff.mpr hv
    rw [hlv] at this
    exact Bool.noConfusion this

/-- Claim C6 (corrected): every introspection sub-step failure is caught
and degrades to an empty result: a failed primary-key lookup yields no
primary key, failed key-constraint lookups yield unannotated columns, and a
failed column-list query yields an empty column map; none of them fails the
request, which still succeeds for any introspection outcome whatsoever. -/
theorem c6_degraded_introspection :
    (∀ (it : Introspection) (m : String),
      it.pk1Q = .error m → getPrimaryKeyColumn it = none) ∧
    (∀ (it : Introspection) (m col : String) (meta : ColMeta),
      it.pkSetQ = .error m → (col, meta) ∈ getColumnMetadata it →
      meta.isPrimaryKey = false) ∧
    (∀ (it : Introspection) (m col : String) (meta : ColMeta),
      it.fkQ = .error m → (col, meta) ∈ getColumnMetadata it →
      meta.isForeignKey = false ∧ meta.foreignKeyRef = none) ∧
    (∀ (it : Introspection) (m col : String) (meta : ColMeta),
      it.uniqueQ = .error m → (col, meta) ∈ getColumnMetadata it →
      meta.isUnique = false) ∧
    (∀ (it : Introspection) (m : String),
      it.colsQ = .error m → getColumnMetadata it = []) ∧
    (∀ (t : String) (req : RawRequest) (env : Env) (pn ln : Int),
      tableNameOk t = true →
      parseIntJs (orStr req.page "1") = .num pn → 1 ≤ pn →
      parseIntJs (orStr req.limit "100") = .num ln → 1 ≤ ln →
      normSort req.sortColumn = none →
      ∃ resp, (getPage t req env).result = .ok resp) := by
  refine ⟨?_, ?_, ?_, ?_, ?_, ?_⟩
  · intro it m h
    unfold getPrimaryKeyColumn
    rw [h]
  · intro it m col meta h hmem
    cases hcols : it.colsQ with
    | error msg => simp [getColumnMetadata, hcols] at hmem
    | ok cols =>
      simp only [getColumnMetadata, hcols] at hmem
      obtain ⟨nd, hnd, heq⟩ := List.mem_map.mp hmem
      cases heq
      simp [getPrimaryKeyColumns, h]
  · intro it m col meta h hmem
    cases hcols : it.colsQ with
    | error msg => simp [getColumnMetadata, hcols] at hmem
    | ok cols =>
      simp only [getColumnMetadata, hcols] at hmem
      obtain ⟨nd, hnd, heq⟩ := List.mem_map.mp hmem
      cases heq
      constructor
      · simp [getForeignKeyRelations, h, fkLookup]
      · simp [getForeignKeyRelations, h, fkLookup]
  · intro it m col meta h hmem
    cases hcols : it.colsQ with
    | error msg => simp [getColumnMetadata, hcols] at hmem
    | ok cols =>
      simp only [getColumnMetadata, hcols] at hmem
      obtain ⟨nd, hnd, heq⟩ := List.mem_map.mp hmem
      cases heq
      simp [getUniqueColumns, h]
  · intro it m h
    simp [getColumnMetadata, h]
  · intro t req env pn ln hname hp hpn hl hln hsort
    have hpv := ltInt_one_false_of_num hp hpn
    have hlv := ltInt_one_false_of_num hl hln
    rw [getPage_noSort_eq hname hpv hlv hsort, hp, hl]
    cases hpk : getPrimaryKeyColumn env.intro with
    | none =>
      rw [planQuery_fallback_nopk]
      simp only [JsNum.subInt, JsNum.mul]
      have hrun := @runQuery_num_offset env.rows
        { pred := .always, orderBy := [], limit := .num ln
          offset := some (.num ((pn - 1) * ln)) }
        ln ((pn - 1) * ln)
        rfl (by omega) rfl (mul_nonneg (by omega) (by omega))
      rw [runPlan_eq_of_ok hrun]
      exact ⟨_, rfl⟩
    | some p =>
      cases hcur : req.cursor with
      | some c =>
        rw [planQuery_cursor]
        have hrun := @runQuery_num_noOffset env.rows
          { pred := .gtCol p c, orderBy := [⟨p, false⟩], limit := .num ln
            offset := none }
          ln rfl (by omega) rfl
        rw [runPlan_eq_of_ok hrun]
        exact ⟨_, rfl⟩
      | none =>
        cases h1 : (JsNum.num pn).eqInt 1 with
        | true =>
          rw [planQuery_first p _ _ _ h1]
          have hrun := @runQuery_num_noOffset env.rows
            { pred := .always, orderBy := [⟨p, false⟩], limit := .num ln
              offset := none }
            ln rfl (by omega) rfl
          rw [runPlan_eq_of_ok hrun]
          exact ⟨_, rfl⟩
        | false =>
          rw [planQuery_fallback_pk p _ _ _ h1]
          simp only [JsNum.subInt, JsNum.mul]
          have hrun := @runQuery_num_offset env.rows
            { pred := .always, orderBy := [⟨p, false⟩], limit := .num ln
              offset := some (.num ((pn - 1) * ln)) }
            ln ((pn - 1) * ln)
            rfl (by omega) rfl (mul_nonneg (by omega) (by omega))
          rw [runPlan_eq_of_ok hrun]
          exact ⟨_, rfl⟩

/-- Counterexample to claim C6 as stated: with a failing column-list query
the request does not fail; it succeeds with an empty column map. -/
theorem c6_counterexample :
    introColsFailW.colsQ = .error "connection reset" ∧
    getColumnMetadata introColsFailW = [] ∧
    (getPage "users" {} envColsFailW).result = .ok respC6 := by
  exact ⟨rfl, by decide, by decide⟩

/-- Claim C1: with a primary key, no sort column and a non-empty cursor the
handler uses the CURSOR strategy, issuing WHERE pk > cursor ORDER BY pk ASC
LIMIT limit with no OFFSET clause; nextCursor is the primary-key cell of
the last returned row (null when no rows come back), every returned row has
a primary-key value strictly greater than the supplied cursor, and hence a
cursor call continuing any successful unsorted call whose nextCursor it
uses repeats none of that prior call's rows. -/
theorem c1_cursor_pagination :
    (∀ (t : String) (req : RawRequest) (env : Env) (p : String) (c ln : Int),
      tableNameOk t = true →
      (parseIntJs (orStr req.page "1")).ltInt 1 = false →
      parseIntJs (orStr req.limit "100") = .num ln → 1 ≤ ln →
      normSort req.sortColumn = none →
      getPrimaryKeyColumn env.intro = some p →
      req.cursor = some c →
      (getPage t req env).strategy = some .CURSOR ∧
      (getPage t req env).dataQuery = some
        { pred := .gtCol p c, orderBy := [⟨p, false⟩], limit := .num ln, offset := none } ∧
      ∃ resp, (getPage t req env).result = .ok resp ∧
        resp.nextCursor = resp.rows.getLast?.bind (fun r => r.get p) ∧
        (resp.rows = [] → resp.nextCursor = none) ∧
        ∀ r ∈ resp.rows, ∃ v, r.get p = some v ∧ c < v) ∧
    (∀ (t : String) (req0 req : RawRequest) (env : Env) (p : String) (c : Int)
        (resp0 resp : Response),
      normSort req0.sortColumn = none →
      (getPage t req0 env).result = .ok resp0 →
      resp0.nextCursor = some c →
      normSort req.sortColumn = none →
      req.cursor = some c →
      getPrimaryKeyColumn env.intro = some p →
      (getPage t req env).result = .ok resp →
      ∀ r0 ∈ resp0.rows, r0 ∉ resp.rows) := by
  constructor
  · intro t req env p c ln hname hpv hl hln hsort hpk hcur
    have hlv := ltInt_one_false_of_num hl hln
    rw [getPage_noSort_eq hname hpv hlv hsort, hl, hpk, hcur, planQuery_cursor]
    have hrun := @runQuery_num_noOffset env.rows
      { pred := .gtCol p c, orderBy := [⟨p, false⟩], limit := .num ln
        offset := none }
      ln rfl (by omega) rfl
    rw [runPlan_eq_of_ok hrun]
    refine ⟨rfl, rfl, _, rfl, rfl, fun he => nextCursor_nil rfl he, ?_⟩
    intro r hr
    exact rowPasses_gt.mp (runQuery_ok_mem hrun r hr).2
  · intro t req0 req env p c resp0 resp hsort0 h0 hnc0 hsort hcur hpk h
    obtain ⟨hpair, hncEq⟩ := getPage_noSort_ok_rows hsort0 hpk h0
    have hbind : resp0.rows.getLast?.bind (fun r => r.get p) = some c := by
      rw [← hncEq, hnc0]
    obtain ⟨last, hlast, hlastc⟩ := Option.bind_eq_some.mp hbind
    intro r0 hr0 hrIn
    have hle : ∃ v0, r0.get p = some v0 ∧ v0 ≤ c := by
      rcases pairwise_le_getLast hpair hlast hr0 with rfl | hlt
      · exact ⟨c, hlastc, le_refl c⟩
      · exact rowLe_single_some hlt hlastc
    obtain ⟨v0, hv0, hv0c⟩ := hle
    obtain ⟨v, hv, hcv⟩ := getPage_cursor_ok_rows hsort hpk hcur h r0 hrIn
    rw [hv0] at hv
    have := Option.some.inj hv
    omega

theorem c1_witness :
    (getPage "users" { cursor := some 1 } envW).strategy = some .CURSOR ∧
    rowW 1 ∉ respC1b.rows :=
  ⟨(c1_cursor_pagination.1 "users" { cursor := some 1 } envW "id" 1 100
      (by decide) (by decide) (by decide) (by decide) (by decide) (by decide)
      (by decide)).1,
   c1_cursor_pagination.2 "users" { limit := some "1" } { cursor := some 1 } envW
     "id" 1 respC1a respC1b (by decide) (by decide) (by decide) (by decide)
     (by decide) (by decide) (by decide) (rowW 1) (by decide)⟩

theorem c2_witness :
    (getPage "users" { sortColumn := some "x", sortDirection := some "desc" } envW).strategy =
      some .OFFSET_SORTED :=
  (c2_offset_sorted "users" { sortColumn := some "x", sortDirection := some "desc" }
    envW "x" 1 100 (by decide) (by decide) (by decide) (by decide) (by decide)
    (by decide) (by decide)).1

theorem c3_witness :
    (getPage "users" {} envW).strategy = some .OFFSET_FIRST_PAGE :=
  (c3_first_page "users" {} envW "id" 100 (by decide) (by decide) (by decide)
    (by decide) (by decide) (by decide) (by decide)).1

theorem c4_witness :
    (getPage "users" { page := some "2" } envW).strategy = some .OFFSET_FALLBACK ∧
    (getPage "users" {} envNoPkW).strategy = some .OFFSET_FALLBACK :=
  ⟨(c4_fallback "users" { page := some "2" } envW 2 100 (by decide) (by decide)
      (by decide) (by decide) (by decide) (by decide)
      (Or.inr ⟨by decide, by decide⟩)).1,
   (c4_fallback "users" {} envNoPkW 1 100 (by decide) (by decide) (by decide)
      (by decide) (by decide) (by decide) (Or.inl (by decide))).1⟩

theorem c5_witness :
    (getPage "users" { sortColumn := some "nope" } envW).result =
      .error { status := 400, error := "Invalid sort column" } :=
  (c5_invalid_sort_column "users" { sortColumn := some "nope" } envW (by decide)
    (by decide) (by decide)).1.mpr ⟨"nope", by decide, by decide⟩

theorem c6_witness :
    getColumnMetadata introColsFailW = [] ∧
    ∃ resp, (getPage "users" {} envColsFailW).result = .ok resp :=
  ⟨c6_degraded_introspection.2.2.2.2.1 introColsFailW "connection reset" (by decide),
   c6_degraded_introspection.2.2.2.2.2 "users" {} envColsFailW 1 100 (by decide)
     (by decide) (by decide) (by decide) (by decide) (by decide)⟩

theorem c7_witness :
    (getPage "users; DROP TABLE x" {} envW).countExecuted = false :=
  (c7_invalid_table_name "users; DROP TABLE x" {} envW ';' (by decide)
    (by decide)).2.2.1

theorem c8_witness :
    respW8.totalCount = envW.rows.length ∧ respW8.isApproximate = false ∧
    (getPage "users" {} envW).countExecuted = true :=
  c8_total_count "users" {} envW respW8 (by decide)

theorem c9_witness :
    (route (some "conn1") "users" {} stW).2 = stW :=
  (c9_idempotent (some "conn1") "users" {} stW (by decide) (by decide)
    (by decide)).1

theorem c10_witness :
    parseIntJs "abc" = .nan ∧
    (getPage "users" { page := some "abc" } envW).result ≠
      .error { status := 400, error := "Page and limit must be positive integers" } :=
  ⟨c10_nan_validation.1 "abc" (by decide),
   c10_nan_validation.2.1 "users" { page := some "abc" } envW "abc" (by decide)
     (by decide) (by decide) (by decide)⟩

end PgLens
